import Mathlib

/-!
Shallow embedding of the two Blender add-on files
`SimpleRigUI_blender4x.py` (collection-based rig layers) and
`NendoroidSimpleRigUI.py` (legacy bitmask rig layers).

Both files define two panel classes:
  - `Rig_PT_customproperties` with a `poll` guard and a `draw` routine
    listing custom properties of selected pose bones;
  - `RigLayer` with a `poll` guard keyed on a rig-identifier field and a
    `draw` routine emitting a fixed grid of visibility toggles.
plus module-level `register` / `unregister` functions.

Python exceptions are modelled with `Except PyExc`; attribute access on a
Python `None` raises `AttributeError`, iterating `None` raises `TypeError`,
and a mapping subscript with a missing key raises `KeyError`.  A `try`
block with an `except` clause is modelled by pattern-matching on the
attempted computation and converting exactly the caught exception
constructors to the handler result.
-/

namespace SimpleRigUI

/-- Python exception kinds that can arise in these two files. -/
inductive PyExc where
  | attributeError
  | typeError
  | keyError
deriving DecidableEq, Repr

/-- A pose bone: its name and its custom-property dictionary
(`bone.keys()` is the list of keys in order, values are the numbers the
sliders edit). -/
structure PoseBone where
  name : String
  props : List (String × Int)
deriving DecidableEq, Repr

/-- A bone collection of an armature (collection-based variant): a name
and the `is_visible` flag the toggles bind to. -/
structure BoneCollection where
  name : String
  is_visible : Bool
deriving DecidableEq, Repr

/-- Armature data: its name in `bpy.data.armatures`, its custom ID fields
(where `Character_rig_id` lives), and its named bone collections. -/
structure ArmData where
  name : String
  idFields : List (String × String)
  collections : List BoneCollection
deriving DecidableEq, Repr

/-- The pose of an armature object: its pose-bone list (`pose.bones`). -/
structure Pose where
  bones : List PoseBone
deriving DecidableEq, Repr

/-- A scene object: its `type` tag (for instance `ARMATURE`), its `data`
block (`none` models a Python `None` data block), and its `pose`
(`none` models a Python `None`, as on non-armature objects). -/
structure Obj where
  type : String
  data : Option ArmData
  pose : Option Pose
deriving DecidableEq, Repr

/-- The host context handed to `poll` and `draw`: the interaction mode,
the active object, the selected pose bones and the active pose bone.
Each `none` models the corresponding Python attribute being `None`. -/
structure Context where
  mode : String
  active_object : Option Obj
  selected_pose_bones : Option (List PoseBone)
  active_pose_bone : Option PoseBone
deriving DecidableEq, Repr

/-- The global `bpy.data` store, restricted to what the files read:
the armature collection `bpy.data.armatures`. -/
structure BpyData where
  armatures : List ArmData
deriving DecidableEq, Repr

/-- The rig-identifier constant of `SimpleRigUI_blender4x.py` (line 3). -/
def Character_rig_id_b4x : String := "basemeshkit_b3d4x"

/-- The rig-identifier constant of `NendoroidSimpleRigUI.py` (line 3). -/
def Character_rig_id_nendoroid : String := "ml20200703"

/-- The `bl_idname` of `Rig_PT_customproperties` in the Blender-4x file. -/
def b4x_customproperties_idname : String := "UI_PT_customproperties"

/-- The `bl_idname` of `RigLayer` in the Blender-4x file. -/
def b4x_riglayer_idname : String := "UI_PT_rig_layer"

/-- The `bl_idname` of `Rig_PT_customproperties` in the Nendoroid file. -/
def nendoroid_customproperties_idname : String := "UI_PT_customproperties"

/-- The `bl_idname` of `RigLayer` in the Nendoroid file. -/
def nendoroid_riglayer_idname : String := "UI_PT_rig_layer"

/-! ## Python string containment

`key not in "_RNA_UI"` in Python tests whether `key` occurs as a
contiguous substring of the string `"_RNA_UI"`; `listContains hay needle`
is that substring test on character lists. -/

/-- Whether `needle` occurs as a contiguous substring of `hay`
(the Python `needle in hay` test on strings). -/
def listContains (needle : List Char) : List Char → Bool
  | [] => needle.isEmpty
  | c :: rest => needle.isPrefixOf (c :: rest) || listContains needle rest

/-- Python `needle in hay` on strings. -/
def pyStrIn (needle hay : String) : Bool :=
  listContains needle.data hay.data

/-- The reserved metadata key the draw loop compares against (line 52). -/
def rnaUI : String := "_RNA_UI"

/-! ## The Rig Properties panel (identical in both files) -/

/-- Guard of `Rig_PT_customproperties` before exception handling
(lines 20-24): the early mode test, then
`context.active_object.type == 'ARMATURE'`; when `active_object` is the
Python `None`, reading `.type` raises `AttributeError`. -/
def Rig_PT_poll_attempt (ctx : Context) : Except PyExc Bool :=
  match ctx.active_object with
  | none => .error PyExc.attributeError
  | some obj => .ok (obj.type == "ARMATURE")

/-- Guard of `Rig_PT_customproperties` (lines 18-26): returns `False`
when the mode is not `POSE`; otherwise attempts the type test, with an
`except (TypeError)` clause returning `False`.  Only `TypeError` is
caught, so an `AttributeError` propagates. -/
def Rig_PT_poll (ctx : Context) : Except PyExc Bool :=
  if ctx.mode ≠ "POSE" then .ok false
  else
    match Rig_PT_poll_attempt ctx with
    | .error PyExc.typeError => .ok false
    | r => r

/-- A widget emitted by the Rig Properties draw routine: the per-bone
box, a key label, or the slider `row.prop(bone, ...)` bound to custom
property `key` of the bone named `boneName`. -/
inductive Widget where
  | box
  | label (text : String)
  | propSlider (boneName : String) (key : String)
deriving DecidableEq, Repr

/-- The custom-property keys of a bone, `bone.keys()` (line 51). -/
def boneKeys (b : PoseBone) : List String :=
  b.props.map Prod.fst

/-- Widgets of one key of one bone (lines 52-59): skipped when the key is
contained in `"_RNA_UI"` (the Python substring test), otherwise a label
and a slider. -/
def drawKey (boneName k : String) : List Widget :=
  if pyStrIn k rnaUI then [] else [Widget.label k, Widget.propSlider boneName k]

/-- Widgets of one selected bone (lines 48-59): a box when the bone has
at least one key, then the per-key rows. -/
def drawBone (b : PoseBone) : List Widget :=
  (if (boneKeys b).length > 0 then [Widget.box] else []) ++
    (boneKeys b).flatMap (drawKey b.name)

/-- The dead local list of lines 32-33: names of the selected bones with
the active bone's name appended; computed and never used afterwards. -/
def selected_bones_names (sel : List PoseBone) (a : PoseBone) : List String :=
  sel.map PoseBone.name ++ [a.name]

/-- Draw routine of `Rig_PT_customproperties` (lines 28-59).
Line 30 reads `context.active_object.pose.bones` outside any `try`, so a
missing active object or a `None` pose raises `AttributeError`.  Lines
31-35 build the (unused) name list inside `try ... except (AttributeError,
TypeError): return`: iterating a `None` selection raises `TypeError` and a
`None` active bone raises `AttributeError` at `.name`, both caught,
returning with no widgets emitted.  The loop of lines 48-59 then iterates
`context.selected_pose_bones` only. -/
def Rig_PT_draw (ctx : Context) : Except PyExc (List Widget) :=
  match ctx.active_object with
  | none => .error PyExc.attributeError
  | some obj =>
    match obj.pose with
    | none => .error PyExc.attributeError
    | some _pose =>
      match ctx.selected_pose_bones with
      | none => .ok []
      | some sel =>
        match ctx.active_pose_bone with
        | none => .ok []
        | some a =>
          let _names := selected_bones_names sel a
          .ok (sel.flatMap drawBone)

/-! ## The Rig Layer panel -/

/-- The value of `active_object.data.get("Character_rig_id")` when every
access succeeds: `none` both when the chain has a `None`/absent link and
when the field is missing (Python `.get` returns `None` then). -/
def rigIdTag (ctx : Context) : Option String :=
  (ctx.active_object.bind Obj.data).bind (fun d => d.idFields.lookup "Character_rig_id")

/-- Guard of `RigLayer` before exception handling (line 74):
`context.active_object.data.get("Character_rig_id") == Character_rig_id`.
A `None` active object or `None` data raises `AttributeError`; an absent
field makes `.get` return `None`, which compares unequal to the string
constant. -/
def RigLayer_poll_attempt (rigId : String) (ctx : Context) : Except PyExc Bool :=
  match ctx.active_object with
  | none => .error PyExc.attributeError
  | some obj =>
    match obj.data with
    | none => .error PyExc.attributeError
    | some d => .ok (d.idFields.lookup "Character_rig_id" == some rigId)

/-- Guard of `RigLayer` (lines 71-76), parameterised by the file's
rig-identifier constant: the attempt wrapped in
`except (AttributeError, KeyError, TypeError): return False`. -/
def RigLayer_poll (rigId : String) (ctx : Context) : Except PyExc Bool :=
  match RigLayer_poll_attempt rigId ctx with
  | .error PyExc.attributeError => .ok false
  | .error PyExc.keyError => .ok false
  | .error PyExc.typeError => .ok false
  | r => r

/-- A toggle of the collection-based layer panel: the name of the armature
whose collection it binds, the collection key, and the button label. -/
structure Toggle where
  armName : String
  collName : String
  label : String
deriving DecidableEq, Repr

/-- A toggle of the legacy layer panel: the name of the armature data it
binds, the layer index, and the button label. -/
structure LayerToggle where
  armName : String
  index : Nat
  label : String
deriving DecidableEq, Repr

/-- The armature name hard-coded at line 80 of the Blender-4x file. -/
def starterKitArm : String := "Rig_baseMeshesCharacterStarterKit"

/-- The (collection key, label) pairs of the Blender-4x `RigLayer.draw`
(lines 84-116), in source order. -/
def collBindings : List (String × String) :=
  [("ctrl-head", "Head"),
   ("ctrl-neck", "Neck"),
   ("ctrl-body", "Body(Main)"),
   ("ctrl-body(tweak)", "Body(Tweak)"),
   ("ctrl-arm_R(FK)", "Arm R(FK)"),
   ("ctrl-arm_R(IK)", "Arm R(IK)"),
   ("ctrl-arm_R(tweak)", "Arm R(Tweak)"),
   ("ctrl-finger_R", "Finger R"),
   ("ctrl-arm_L(FK)", "Arm L(FK)"),
   ("ctrl-arm_L(IK)", "Arm L(IK)"),
   ("ctrl-arm_L(tweak)", "Arm L(Tweak)"),
   ("ctrl-finger_L", "Finger L"),
   ("ctrl-leg_R(FK)", "Leg R(FK)"),
   ("ctrl-leg_R(IK)", "Leg R(IK)"),
   ("ctrl-leg_R(tweak)", "Leg R(Tweak)"),
   ("ctrl-leg_L(FK)", "Leg L(FK)"),
   ("ctrl-leg_L(IK)", "Leg L(IK)"),
   ("ctrl-leg_L(tweak)", "Leg L(Tweak)"),
   ("ctrl-root", "Root")]

/-- The (layer index, label) pairs of the Nendoroid `RigLayer.draw`
(lines 82-113), in source order. -/
def layerBindings : List (Nat × String) :=
  [(0, "Head"),
   (1, "Body(Main)"),
   (2, "Body(Tweak)"),
   (19, "Arm R(FK)"),
   (20, "Arm R(IK)"),
   (21, "Arm R(Tweak)"),
   (22, "Finger R"),
   (3, "Arm L(FK)"),
   (4, "Arm L(IK)"),
   (5, "Arm L(Tweak)"),
   (6, "Finger L"),
   (24, "Leg R(FK)"),
   (25, "Leg R(IK)"),
   (26, "Leg R(Tweak)"),
   (8, "Leg L(FK)"),
   (9, "Leg L(IK)"),
   (10, "Leg L(Tweak)"),
   (16, "Root")]

/-- One `col.prop(collection["key"], 'is_visible', ...)` call per binding:
a missing collection key raises `KeyError` at subscript time. -/
def drawToggles (arm : ArmData) : List (String × String) → Except PyExc (List Toggle)
  | [] => .ok []
  | (k, lbl) :: rest =>
    match arm.collections.find? (fun c => c.name == k) with
    | none => .error PyExc.keyError
    | some _c =>
      match drawToggles arm rest with
      | .ok ts => .ok (⟨arm.name, k, lbl⟩ :: ts)
      | .error e => .error e

/-- Draw routine of the Blender-4x `RigLayer` (lines 78-116): it reads
`bpy.data.armatures["Rig_baseMeshesCharacterStarterKit"].collections`
— a fixed global name, never the context — and emits one toggle per
binding; a missing armature or collection raises `KeyError`. -/
def RigLayer_b4x_draw (data : BpyData) : Except PyExc (List Toggle) :=
  match data.armatures.find? (fun a => a.name == starterKitArm) with
  | none => .error PyExc.keyError
  | some arm => drawToggles arm collBindings

/-- Draw routine of the Nendoroid `RigLayer` (lines 78-113): each line
reads `context.active_object.data` and toggles one bit of its `layers`
mask; a `None` active object or data raises `AttributeError`, and any
index 0-31 is addressable, so with data present it cannot fail. -/
def RigLayer_legacy_draw (ctx : Context) : Except PyExc (List LayerToggle) :=
  match ctx.active_object with
  | none => .error PyExc.attributeError
  | some obj =>
    match obj.data with
    | none => .error PyExc.attributeError
    | some d => .ok (layerBindings.map (fun p => ⟨d.name, p.1, p.2⟩))

/-! ## Registration lifecycle (identical in both files) -/

/-- A call to the host UI registry. -/
inductive RegOp where
  | registerClass (cls : String)
  | unregisterClass (cls : String)
deriving DecidableEq, Repr

/-- The calls `register()` makes, in order (Blender-4x lines 119-121,
Nendoroid lines 116-118): `RigLayer` first, then
`Rig_PT_customproperties`. -/
def register_calls : List RegOp :=
  [RegOp.registerClass "RigLayer", RegOp.registerClass "Rig_PT_customproperties"]

/-- The calls `unregister()` makes, in order (Blender-4x lines 124-126,
Nendoroid lines 121-123): again `RigLayer` first, then
`Rig_PT_customproperties`. -/
def unregister_calls : List RegOp :=
  [RegOp.unregisterClass "RigLayer", RegOp.unregisterClass "Rig_PT_customproperties"]

/-- The class a registry call names. -/
def RegOp.cls : RegOp → String
  | .registerClass c => c
  | .unregisterClass c => c

/-- The `type` of the active object, when there is one. -/
def activeType (ctx : Context) : Option String :=
  ctx.active_object.map Obj.type

/-- The name of the active object's armature data, when present. -/
def activeDataName (ctx : Context) : Option String :=
  (ctx.active_object.bind Obj.data).map ArmData.name

/-! ## Concrete host states used to exercise the routines -/

/-- A context in pose mode with no active object. -/
def ctxPoseNoObj : Context :=
  { mode := "POSE", active_object := none,
    selected_pose_bones := none, active_pose_bone := none }

/-- A bone whose only custom-property key is `RNA`, a proper substring of
the reserved key. -/
def boneRNA : PoseBone :=
  { name := "Bone", props := [("RNA", 1)] }

/-- The armature the Blender-4x layer panel names, with every collection
the bindings reference, all visible. -/
def starterArmFull : ArmData :=
  { name := starterKitArm, idFields := [],
    collections := collBindings.map (fun p => { name := p.1, is_visible := true }) }

/-- An armature named differently from the hard-coded one but carrying
the Blender-4x rig identifier. -/
def otherArm : ArmData :=
  { name := "OtherRig",
    idFields := [("Character_rig_id", Character_rig_id_b4x)],
    collections := [] }

/-- A pose-mode context whose active object is the `OtherRig` armature. -/
def ctxOther : Context :=
  { mode := "POSE",
    active_object := some { type := "ARMATURE", data := some otherArm, pose := some { bones := [] } },
    selected_pose_bones := some [], active_pose_bone := none }

/-- A scene holding both the hard-coded armature and `OtherRig`. -/
def sceneTwo : BpyData :=
  { armatures := [starterArmFull, otherArm] }

/-- An armature carrying the Nendoroid rig identifier. -/
def nendoArm : ArmData :=
  { name := "NendoRig",
    idFields := [("Character_rig_id", Character_rig_id_nendoroid)],
    collections := [] }

/-- A pose-mode context on the Nendoroid armature with an unreadable
(`None`) selection. -/
def ctxNendo : Context :=
  { mode := "POSE",
    active_object := some { type := "ARMATURE", data := some nendoArm, pose := some { bones := [] } },
    selected_pose_bones := none, active_pose_bone := none }

/-- A bone with one ordinary custom property. -/
def boneInfluence : PoseBone :=
  { name := "FooBone", props := [("influence", 2)] }

/-- A pose-mode context where no bone is selected but `boneInfluence` is
the active pose bone. -/
def ctxActiveOnly : Context :=
  { mode := "POSE",
    active_object := some { type := "ARMATURE", data := some nendoArm,
                            pose := some { bones := [boneInfluence] } },
    selected_pose_bones := some [], active_pose_bone := some boneInfluence }

/-- A pose-mode context with `boneInfluence` selected but a `None`
active pose bone, so line 33 takes the `AttributeError` return path. -/
def ctxSelNoActive : Context :=
  { mode := "POSE",
    active_object := some { type := "ARMATURE", data := some nendoArm,
                            pose := some { bones := [boneInfluence] } },
    selected_pose_bones := some [boneInfluence], active_pose_bone := none }

/-- A pose-mode context with `boneRNA` selected and active. -/
def ctxRNA : Context :=
  { mode := "POSE",
    active_object := some { type := "ARMATURE", data := some nendoArm,
                            pose := some { bones := [boneRNA] } },
    selected_pose_bones := some [boneRNA], active_pose_bone := some boneRNA }

/-! ## Helper lemmas -/

/-- Membership of a label widget in the rows of one key. -/
lemma mem_drawKey_label (n a k : String) :
    Widget.label k ∈ drawKey n a ↔ (k = a ∧ pyStrIn a rnaUI = false) := by
  unfold drawKey
  split <;> simp_all

/-- Membership of a slider widget in the rows of one key. -/
lemma mem_drawKey_slider (n a k : String) :
    Widget.propSlider n k ∈ drawKey n a ↔ (k = a ∧ pyStrIn a rnaUI = false) := by
  unfold drawKey
  split <;> simp_all

/-- Membership in the widgets of one bone: the box (when the bone has
keys) or a row of one of its keys. -/
lemma mem_drawBone (b : PoseBone) (w : Widget) :
    w ∈ drawBone b ↔
      (w = Widget.box ∧ (boneKeys b).length > 0) ∨
        ∃ a ∈ boneKeys b, w ∈ drawKey b.name a := by
  unfold drawBone
  split <;> simp_all [List.mem_flatMap]

/-- Success of `drawToggles` yields exactly the binding list, stamped
with the armature's name. -/
lemma drawToggles_ok (arm : ArmData) :
    ∀ (bs : List (String × String)) (ts : List Toggle),
      drawToggles arm bs = .ok ts →
        ts = bs.map (fun p => { armName := arm.name, collName := p.1, label := p.2 }) := by
  intro bs
  induction bs with
  | nil =>
    intro ts h
    unfold drawToggles at h
    cases h
    rfl
  | cons p rest ih =>
    intro ts h
    unfold drawToggles at h
    split at h
    · cases h
    · split at h
      · cases h
        simp [ih _ (by assumption)]
      · cases h

/-- Armature names of the toggles a successful `drawToggles` emits. -/
lemma drawToggles_armName (arm : ArmData) (bs : List (String × String))
    (ts : List Toggle) (h : drawToggles arm bs = .ok ts) :
    ∀ t ∈ ts, t.armName = arm.name := by
  intro t ht
  rw [drawToggles_ok arm bs ts h] at ht
  rcases List.mem_map.mp ht with ⟨p, _, rfl⟩
  rfl

/-! ## The claims -/

/-- C1, the claim as stated is false: the draw loop tests
`key not in "_RNA_UI"`, the Python substring test, not inequality with
the reserved key.  The key `RNA` differs from `_RNA_UI`, yet for a
selected bone whose only key is `RNA` the panel renders the box and no
label or slider at all. -/
theorem C1_counterexample :
    "RNA" ≠ rnaUI ∧ boneKeys boneRNA = ["RNA"] ∧
      Rig_PT_draw ctxRNA = .ok [Widget.box] ∧
      Widget.label "RNA" ∉ [Widget.box] ∧
      Widget.propSlider "Bone" "RNA" ∉ [Widget.box] := by
  refine ⟨by decide, rfl, rfl, by decide, by decide⟩

/-- C1 amended: for every bone and key, the label and the adjacent
slider are rendered exactly when the key is not a contiguous substring
of the reserved key `_RNA_UI` (so `_RNA_UI` itself is never rendered,
but substrings such as `RNA` are also suppressed even though they differ
from `_RNA_UI`). -/
theorem C1_theorem (b : PoseBone) (k : String) :
    (Widget.label k ∈ drawBone b ↔ k ∈ boneKeys b ∧ pyStrIn k rnaUI = false) ∧
      (Widget.propSlider b.name k ∈ drawBone b ↔
        k ∈ boneKeys b ∧ pyStrIn k rnaUI = false) := by
  constructor
  · rw [mem_drawBone]
    simp only [mem_drawKey_label]
    constructor
    · rintro (⟨h, -⟩ | ⟨a, ha, rfl, hp⟩)
      · cases h
      · exact ⟨ha, hp⟩
    · rintro ⟨hk, hp⟩
      exact Or.inr ⟨k, hk, rfl, hp⟩
  · rw [mem_drawBone]
    simp only [mem_drawKey_slider]
    constructor
    · rintro (⟨h, -⟩ | ⟨a, ha, rfl, hp⟩)
      · cases h
      · exact ⟨ha, hp⟩
    · rintro ⟨hk, hp⟩
      exact Or.inr ⟨k, hk, rfl, hp⟩

/-- C2, the claim as stated is false: in a pose-mode context with no
active object, reading `.type` of the `None` active object raises
`AttributeError`, and the guard's `except (TypeError)` clause does not
catch it, so the exception propagates out of `poll`. -/
theorem C2_counterexample :
    Rig_PT_poll ctxPoseNoObj = .error PyExc.attributeError := rfl

/-- C2 amended: the Properties-panel guard returns a boolean for every
context except those in pose mode with no active object; exactly there
the attribute access raises `AttributeError`, which the guard's
`except (TypeError)` clause does not catch. -/
theorem C2_theorem (ctx : Context) :
    (∃ b, Rig_PT_poll ctx = .ok b) ↔ ¬(ctx.mode = "POSE" ∧ ctx.active_object = none) := by
  rcases ctx with ⟨mode, ao, sel, ab⟩
  unfold Rig_PT_poll Rig_PT_poll_attempt
  by_cases hm : mode = "POSE" <;> cases ao <;> simp [hm]

/-- C3, the claim as stated is false: in a scene holding both the
hard-coded armature and a second armature `OtherRig` that carries the
rig identifier, the guard passes with `OtherRig` active, yet every
toggle the draw routine emits binds a collection of the armature named
`Rig_baseMeshesCharacterStarterKit`, not of the active object's data. -/
theorem C3_counterexample :
    RigLayer_poll Character_rig_id_b4x ctxOther = .ok true ∧
      activeDataName ctxOther = some "OtherRig" ∧
      RigLayer_b4x_draw sceneTwo =
        .ok (collBindings.map
          (fun p => { armName := starterKitArm, collName := p.1, label := p.2 })) ∧
      ((collBindings.map
          (fun p => ({ armName := starterKitArm, collName := p.1, label := p.2 } : Toggle))).all
        (fun t => t.armName == starterKitArm)) = true ∧
      starterKitArm ≠ "OtherRig" := by
  refine ⟨rfl, rfl, rfl, rfl, by decide⟩

/-- C3 amended: every toggle the collection-based layer panel emits is
bound to a bone collection of the armature named
`Rig_baseMeshesCharacterStarterKit` looked up in the global armature
store, independent of the active object; a collection absent on that
named armature (not on the active one) is the failure mode. -/
theorem C3_theorem (data : BpyData) (ts : List Toggle)
    (h : RigLayer_b4x_draw data = .ok ts) :
    ts.all (fun t => t.armName == starterKitArm) = true := by
  unfold RigLayer_b4x_draw at h
  split at h
  · cases h
  · rename_i arm harm
    rw [List.all_eq_true]
    intro t ht
    have hn := drawToggles_armName arm collBindings ts h t ht
    have := List.find?_some harm
    rw [beq_iff_eq] at this ⊢
    rw [hn, this]

/-- C3 witness: the amended theorem applied to the two-armature scene. -/
theorem C3_witness :
    ((collBindings.map
        (fun p => ({ armName := starterKitArm, collName := p.1, label := p.2 } : Toggle))).all
      (fun t => t.armName == starterKitArm)) = true :=
  C3_theorem sceneTwo _ rfl

/-- C4, the claim as stated is false: the legacy panel renders 18
toggle bindings and the collection panel renders 19, not 13. -/
theorem C4_counterexample :
    RigLayer_legacy_draw ctxNendo =
        .ok (layerBindings.map
          (fun p => { armName := "NendoRig", index := p.1, label := p.2 })) ∧
      (layerBindings.map
          (fun p => ({ armName := "NendoRig", index := p.1, label := p.2 } : LayerToggle))).length = 18 ∧
      (collBindings.map
          (fun p => ({ armName := starterKitArm, collName := p.1, label := p.2 } : Toggle))).length = 19 ∧
      (18 : Nat) ≠ 13 ∧ (19 : Nat) ≠ 13 := by
  refine ⟨rfl, rfl, rfl, by decide, by decide⟩

/-- C4 amended: each variant's layer panel renders a stable fixed list
of toggle bindings on every successful draw — the legacy variant exactly
the 18 documented (index, label) pairs, the collection variant exactly
the 19 documented (collection, label) pairs. -/
theorem C4_theorem (ctx : Context) (data : BpyData)
    (ts : List LayerToggle) (us : List Toggle)
    (hl : RigLayer_legacy_draw ctx = .ok ts)
    (hc : RigLayer_b4x_draw data = .ok us) :
    ts.map (fun t => (t.index, t.label)) = layerBindings ∧ ts.length = 18 ∧
      us.map (fun t => (t.collName, t.label)) = collBindings ∧ us.length = 19 := by
  unfold RigLayer_legacy_draw at hl
  split at hl
  · cases hl
  · split at hl
    · cases hl
    · cases hl
      unfold RigLayer_b4x_draw at hc
      split at hc
      · cases hc
      · rename_i arm harm
        rw [drawToggles_ok arm collBindings us hc]
        refine ⟨rfl, rfl, rfl, rfl⟩

/-- C4 witness: the amended theorem applied to the Nendoroid context and
the two-armature scene. -/
theorem C4_witness :
    (layerBindings.map
        (fun p => ({ armName := "NendoRig", index := p.1, label := p.2 } : LayerToggle))).map
      (fun t => (t.index, t.label)) = layerBindings ∧
    (layerBindings.map
        (fun p => ({ armName := "NendoRig", index := p.1, label := p.2 } : LayerToggle))).length = 18 ∧
    (collBindings.map
        (fun p => ({ armName := starterKitArm, collName := p.1, label := p.2 } : Toggle))).map
      (fun t => (t.collName, t.label)) = collBindings ∧
    (collBindings.map
        (fun p => ({ armName := starterKitArm, collName := p.1, label := p.2 } : Toggle))).length = 19 :=
  C4_theorem ctxNendo sceneTwo _ _ rfl rfl

/-- C5, the claim as stated is false: `unregister()` calls the registry
on `RigLayer` first and `Rig_PT_customproperties` second, the same
order `register()` used, not the reverse. -/
theorem C5_counterexample :
    unregister_calls.map RegOp.cls ≠ (register_calls.map RegOp.cls).reverse := by
  decide

/-- C5 amended: `unregister()` removes the two panel classes in the same
order `register()` registered them (`RigLayer` first, then
`Rig_PT_customproperties`), not in reverse. -/
theorem C5_theorem :
    unregister_calls.map RegOp.cls = register_calls.map RegOp.cls ∧
      register_calls.map RegOp.cls = ["RigLayer", "Rig_PT_customproperties"] := by
  refine ⟨rfl, rfl⟩

/-- C6, the claim as stated is false: with no bone selected and
`boneInfluence` active (carrying a renderable custom property), the
draw routine renders nothing — the active bone is never added to the
iterated set, which is `context.selected_pose_bones` alone. -/
theorem C6_counterexample :
    ctxActiveOnly.selected_pose_bones = some [] ∧
      ctxActiveOnly.active_pose_bone = some boneInfluence ∧
      drawBone boneInfluence ≠ [] ∧
      Rig_PT_draw ctxActiveOnly = .ok [] := by
  refine ⟨rfl, rfl, by decide, rfl⟩

/-- C6 amended: the set of bones the Properties panel iterates and
renders groups for is exactly the selected pose bones; the active bone
is appended only to a dead local list of names and is not itself
rendered unless it is selected. -/
theorem C6_theorem (ctx : Context) (obj : Obj) (p : Pose)
    (sel : List PoseBone) (a : PoseBone)
    (h1 : ctx.active_object = some obj) (h2 : obj.pose = some p)
    (h3 : ctx.selected_pose_bones = some sel) (h4 : ctx.active_pose_bone = some a) :
    Rig_PT_draw ctx = .ok (sel.flatMap drawBone) := by
  simp [Rig_PT_draw, h1, h2, h3, h4]

/-- C6 witness: the amended theorem applied to the active-only context. -/
theorem C6_witness :
    Rig_PT_draw ctxActiveOnly = .ok (([] : List PoseBone).flatMap drawBone) :=
  C6_theorem ctxActiveOnly
    { type := "ARMATURE", data := some nendoArm, pose := some { bones := [boneInfluence] } }
    { bones := [boneInfluence] } [] boneInfluence rfl rfl rfl rfl

/-- C7: the Properties-panel guard returns true exactly on pose-mode
contexts whose active object has type `ARMATURE`, and returns false
exactly when the mode is not pose mode or the active object's type is
not `ARMATURE`. -/
theorem C7_theorem (ctx : Context) :
    (Rig_PT_poll ctx = .ok true ↔
      (ctx.mode = "POSE" ∧ activeType ctx = some "ARMATURE")) ∧
    (Rig_PT_poll ctx = .ok false ↔
      (ctx.mode ≠ "POSE" ∨ ∃ t, activeType ctx = some t ∧ t ≠ "ARMATURE")) := by
  rcases ctx with ⟨mode, ao, sel, ab⟩
  unfold Rig_PT_poll Rig_PT_poll_attempt activeType
  by_cases hm : mode = "POSE" <;> cases ao <;> simp [hm]

/-- C8: whenever the active object's data does not carry a
`Character_rig_id` field equal to the variant's identifier constant —
the field absent, the data absent, or no active object at all — the
Rig Layer guard returns false, with every exception caught. -/
theorem C8_theorem (rigId : String) (ctx : Context)
    (h : rigIdTag ctx ≠ some rigId) :
    RigLayer_poll rigId ctx = .ok false := by
  rcases ctx with ⟨mode, ao, sel, ab⟩
  cases ao with
  | none => rfl
  | some obj =>
    cases hd : obj.data with
    | none => simp [RigLayer_poll, RigLayer_poll_attempt, hd]
    | some d =>
      have h' : d.idFields.lookup "Character_rig_id" ≠ some rigId := by
        simpa [rigIdTag, hd] using h
      simp [RigLayer_poll, RigLayer_poll_attempt, hd, beq_eq_false_iff_ne, h']

/-- C8 witness: the guard on the Blender-4x identifier in a pose-mode
context with no active object. -/
theorem C8_witness :
    RigLayer_poll Character_rig_id_b4x ctxPoseNoObj = .ok false :=
  C8_theorem Character_rig_id_b4x ctxPoseNoObj (by decide)

/-- C9: in any context that passes the Properties-panel guard (with the
armature's pose present, as the host guarantees) where the selection is
unreadable (`None`), the selection is empty, or the active-bone
attribute is `None` (the `AttributeError` return of line 33, also with
a non-empty selection), the draw routine emits no widgets and raises
nothing. -/
theorem C9_theorem (ctx : Context) (obj : Obj) (p : Pose)
    (_hp : Rig_PT_poll ctx = .ok true)
    (h1 : ctx.active_object = some obj) (h2 : obj.pose = some p)
    (hsel : ctx.selected_pose_bones = none ∨ ctx.selected_pose_bones = some [] ∨
      ctx.active_pose_bone = none) :
    Rig_PT_draw ctx = .ok [] := by
  rcases hsel with hs | hs | hs
  · cases hab : ctx.active_pose_bone <;> simp [Rig_PT_draw, h1, h2, hs, hab]
  · cases hab : ctx.active_pose_bone <;> simp [Rig_PT_draw, h1, h2, hs, hab]
  · cases hsb : ctx.selected_pose_bones <;> simp [Rig_PT_draw, h1, h2, hs, hsb]

/-- C9 witness: the theorem applied to a context with a non-empty
selection and a `None` active pose bone. -/
theorem C9_witness : Rig_PT_draw ctxSelNoActive = .ok [] :=
  C9_theorem ctxSelNoActive
    { type := "ARMATURE", data := some nendoArm, pose := some { bones := [boneInfluence] } }
    { bones := [boneInfluence] } rfl rfl rfl (Or.inr (Or.inr rfl))

/-- C10: the two variant files declare their panels under identical
fixed identifiers — `UI_PT_customproperties` and `UI_PT_rig_layer` —
unique within one variant but shared across the two, so loading both
registers two distinct classes under the same identifier. -/
theorem C10_theorem :
    b4x_customproperties_idname = nendoroid_customproperties_idname ∧
      b4x_riglayer_idname = nendoroid_riglayer_idname ∧
      b4x_customproperties_idname ≠ b4x_riglayer_idname ∧
      nendoroid_customproperties_idname ≠ nendoroid_riglayer_idname := by
  refine ⟨rfl, rfl, by decide, by decide⟩

end SimpleRigUI
